import Mathlib

/-!
Verification of wgcf `api_tests/main.go`: transport adapter and probe sequencer

A shallow embedding of `src/api_tests/main.go`.

* Go values of type `error` are the inductive `error`; a nil error is `none`.
* A Go call that can panic returns `GoResult`.
* The package-level map `defaultHeaders` is explicit state (`Run.defaultHeaders`).
* The collaborators the file calls but does not define (the underlying
  `http.Transport`, the optic-go tester, the sling client, the WireGuard key
  generator, `util.GetTimestamp`) are the fields of `Env`.
* The goroutine draining `proxyErrChan` (lines 80-84) only ever ends the
  process; the embedding describes the runs in which that channel stays silent.
-/

set_option autoImplicit false

namespace Wgcf

/-! ## Go values -/

/-- Go `error` values: the result of `errors.New`, an error raised by the Go
runtime, or an error value made by a collaborator (told apart by `id`). -/
inductive error where
  | errorString (s : String)
  | runtime (s : String)
  | foreign (id : Nat) (s : String)
  deriving DecidableEq, Repr

/-- The method `Error()`. -/
def error.Error : error → String
  | .errorString s => s
  | .runtime s => s
  | .foreign _ s => s

/-- The function `errors.New`. -/
def errors.New (text : String) : error := .errorString text

/-- Outcome of a Go call: it returns a value or it panics with a value. -/
inductive GoResult (α : Type) where
  | ret (a : α)
  | panic (v : error)
  deriving DecidableEq, Repr

/-- Values an `interface{}` holds after JSON decoding: `nil`, `bool`,
`float64` (kept as its bit pattern, never inspected), `string`,
`[]interface{}` and `map[string]interface{}`. -/
inductive JSON where
  | null
  | bool (b : Bool)
  | float64 (bits : Nat)
  | string (s : String)
  | array (xs : List JSON)
  | object (m : List (String × JSON))

/-- Go map index `m[key]` on a `map[string]interface{}`: the value stored
under the key, the nil interface when the key is absent (also on a nil map). -/
def JSON.index (m : List (String × JSON)) (key : String) : JSON :=
  (m.lookup key).getD .null

/-- Name of the dynamic type, as the runtime prints it in a failed type assertion. -/
def JSON.typeName : JSON → String
  | .null => "nil"
  | .bool _ => "bool"
  | .float64 _ => "float64"
  | .string _ => "string"
  | .array _ => "[]interface \x7b\x7d"
  | .object _ => "map[string]interface \x7b\x7d"

/-- Type assertion `v.(string)`: panics unless the dynamic type is `string`. -/
def JSON.assertString (v : JSON) : GoResult String :=
  match v with
  | .string s => .ret s
  | w => .panic (.runtime ("interface conversion: interface \x7b\x7d is " ++ w.typeName ++ ", not string"))

/-- Type assertion `v.(map[string]interface{})`. -/
def JSON.assertMap (v : JSON) : GoResult (List (String × JSON)) :=
  match v with
  | .object m => .ret m
  | w => .panic (.runtime ("interface conversion: interface \x7b\x7d is " ++ w.typeName ++
      ", not map[string]interface \x7b\x7d"))

/-! ## `net/http` values -/

/-- Token bytes of a header field name (`!#$%&` apostrophe `*+-.^_` backtick `|~`,
digits and ASCII letters). -/
def validHeaderFieldByte (c : Char) : Bool :=
  c.isAlphanum || [33, 35, 36, 37, 38, 39, 42, 43, 45, 46, 94, 95, 96, 124, 126].contains c.toNat

/-- Inner loop of `textproto.CanonicalMIMEHeaderKey`: upper case at the start
and after each dash, lower case elsewhere. -/
def canonicalMIMEHeaderKey : Bool → List Char → List Char
  | _, [] => []
  | upper, c :: cs =>
    let c1 := if upper && c.isLower then c.toUpper
      else if !upper && c.isUpper then c.toLower else c
    c1 :: canonicalMIMEHeaderKey (c1 == '-') cs

/-- The function `textproto.CanonicalMIMEHeaderKey`: a key holding a byte that
is not a token byte is returned as it is. -/
def CanonicalMIMEHeaderKey (s : String) : String :=
  if s.data.all validHeaderFieldByte then String.mk (canonicalMIMEHeaderKey true s.data) else s

/-- Type `http.Header`, a `map[string][]string`, as an association list with
at most one entry per key. -/
abbrev Header := List (String × List String)

/-- Map index `h[key]`: nil when the key is absent. -/
def Header.index (h : Header) (key : String) : List String :=
  (h.lookup key).getD []

/-- Method `Header.Set`: the entry under the canonical key becomes the single value. -/
def Header.Set (h : Header) (key value : String) : Header :=
  (CanonicalMIMEHeaderKey key, [value]) ::
    h.filter (fun e => e.1 != CanonicalMIMEHeaderKey key)

/-- The fields of `http.Request` the program touches. `Body` is the JSON
document the request carries, if any. -/
structure Request where
  Method : String
  URL : String
  Header : Header
  Body : Option JSON

/-- The fields of `http.Response` the program touches. -/
structure Response where
  StatusCode : Int
  Header : Header
  Body : String
  deriving DecidableEq, Repr

/-- What a `RoundTrip` hands back: the Go pair `(*http.Response, error)`. -/
abbrev RoundTripResult := Option Response × Option error

/-! ## Lines 16-45: `defaultHeaders` and `CustomTransport.RoundTrip` -/

/-- Line 16: initial value of the package-level map `defaultHeaders`. -/
def defaultHeaders : List (String × String) := [("User-Agent", "okhttp/3.12.1")]

/-- Go map assignment `m[key] = value` on a `map[string]string`. -/
def mapAssign (m : List (String × String)) (key value : String) : List (String × String) :=
  if m.any (fun e => e.1 == key) then
    m.map (fun e => if e.1 == key then (key, value) else e)
  else m ++ [(key, value)]

/-- Lines 34-36: the loop `for key, val := range defaultHeaders { r.Header.Set(key, val) }`.
The list `hs` holds the entries of the map in the order the loop visits them
(Go leaves that order unspecified). -/
def setDefaultHeaders (hs : List (String × String)) (r : Request) : Request :=
  hs.foldl (fun q kv => { q with Header := q.Header.Set kv.1 kv.2 }) r

/-- The verb `%d` of `fmt.Sprintf` on an `int`. -/
def fmtInt (n : Int) : String := toString n

/-- Lines 33-45: `CustomTransport.RoundTrip`. The first component is the request
after the in-place header mutation, which is the request handed to the
underlying transport; the second is what the method returns. Dereferencing a
nil response on line 41 panics. -/
def CustomTransport.RoundTrip (fixedTransport : Request → RoundTripResult)
    (hs : List (String × String)) (r : Request) : Request × GoResult RoundTripResult :=
  let r1 := setDefaultHeaders hs r
  let (response, err) := fixedTransport r1
  match err with
  | some e => (r1, .ret (none, some e))
  | none =>
    match response with
    | none => (r1, .panic (.runtime "runtime error: invalid memory address or nil pointer dereference"))
    | some resp =>
      if resp.StatusCode != 200 then
        (r1, .ret (none, some (errors.New ("bad code: " ++ fmtInt resp.StatusCode))))
      else (r1, .ret (some resp, none))

/-! ## Collaborators -/

/-- A WireGuard key (`wireguard.Key`), used only through `Public` and `String`. -/
structure Key where
  raw : List Nat
  deriving DecidableEq, Repr

/-- Type `opticgo.TestDefinition`; the source fills it positionally: display
name, request body (nil or a struct with JSON tags, kept as the JSON object it
marshals to), path, method. -/
structure TestDefinition where
  Name : String
  Body : Option JSON
  Path : String
  Method : String

/-- Behaviour of everything `main.go` calls but does not define. -/
structure Env where
  /-- Error result of `opticgo.NewTester(testConfig)`. -/
  NewTester : Option error
  /-- Error result of `tester.StartProxy()`. -/
  StartProxy : Option error
  /-- Result of the n-th call (from 0) of `wireguard.NewPrivateKey()`. -/
  NewPrivateKey : Nat → Except error Key
  /-- Method `Key.Public`. -/
  Public : Key → Key
  /-- Method `Key.String`, the textual form of a key. -/
  KeyString : Key → String
  /-- Value returned by `util.GetTimestamp()`. -/
  GetTimestamp : String
  /-- Method `fixedTransport.RoundTrip` of the underlying `http.Transport`. -/
  fixedTransport : Request → RoundTripResult
  /-- Header the sling client puts on the request it builds. -/
  clientHeader : Header
  /-- The error `http.Client.Do` hands back for an error of its transport. -/
  clientError : error → error
  /-- How the sling client decodes the body of a response into `regResp`. -/
  decode : Response → Except error (List (String × JSON))
  /-- Results of `tester.StartAll(tests)`: what `errChan` delivers until it is
  closed (a nil entry is a nil `error`), and the error result. -/
  StartAll : List TestDefinition → List (Option error) × Option error

/-! ## Lines 53-59: `generateKeyPair` -/

/-- Lines 53-59: `generateKeyPair`, at the n-th call of `wireguard.NewPrivateKey`. -/
def generateKeyPair (env : Env) (n : Nat) : GoResult (Key × Key) :=
  match env.NewPrivateKey n with
  | .error err => .panic err
  | .ok privateKey => .ret (privateKey, env.Public privateKey)

/-! ## Lines 61-209: `testAPI` -/

/-- Line 64: `testConfig.OpticUrl.String()`. -/
def OpticUrl : String := "http://localhost:8889"

/-- Lines 90-106: the anonymous struct `regData`. -/
structure RegData where
  PublicKey : String
  InstallID : String
  FcmToken : String
  Tos : String
  Model : String
  Type_ : String
  Locale : String
  deriving DecidableEq, Repr

/-- The JSON object `BodyJSON(regData)` marshals, one member per field under
its `json` tag, in declaration order. -/
def RegData.toJSON (d : RegData) : JSON :=
  .object [("key", .string d.PublicKey), ("install_id", .string d.InstallID),
    ("fcm_token", .string d.FcmToken), ("tos", .string d.Tos), ("model", .string d.Model),
    ("type", .string d.Type_), ("locale", .string d.Locale)]

/-- Lines 90-106: the value of `regData` for the public key of the first key pair. -/
def regData (env : Env) (publicKey : Key) : RegData :=
  { PublicKey := env.KeyString publicKey
    InstallID := ""
    FcmToken := ""
    Tos := env.GetTimestamp
    Model := "PC"
    Type_ := "Android"
    Locale := "en_US" }

/-- Line 108: `client.New().Post(path).BodyJSON(body).ReceiveSuccess(&regResp)` on
the client of line 86, whose transport is `CustomTransport{}`. The client
sends the request through `CustomTransport.RoundTrip`; an error of the
transport comes back as `clientError`, a response is decoded. First component:
the request as handed to the underlying transport. -/
def ReceiveSuccess (env : Env) (hs : List (String × String)) (path : String) (body : JSON) :
    Request × GoResult (Except error (List (String × JSON))) :=
  let r : Request :=
    { Method := "POST", URL := OpticUrl ++ path, Header := env.clientHeader, Body := some body }
  let rt := CustomTransport.RoundTrip env.fixedTransport hs r
  match rt.2 with
  | .panic v => (rt.1, .panic v)
  | .ret (_, some e) => (rt.1, .ret (.error (env.clientError e)))
  | .ret (some resp, none) => (rt.1, .ret (env.decode resp))
  | .ret (none, none) => (rt.1, .ret (.error (env.clientError
      (.foreign 0 "http: RoundTripper implementation (main.CustomTransport) returned a nil *Response with a nil error"))))

/-- Lines 112-114: the three forced casts on `regResp`, in source order:
`deviceId`, `accessToken`, `initialLicenseKey`. -/
def extract (regResp : List (String × JSON)) : GoResult (String × String × String) :=
  match (JSON.index regResp "id").assertString with
  | .panic v => .panic v
  | .ret deviceId =>
    match (JSON.index regResp "token").assertString with
    | .panic v => .panic v
    | .ret accessToken =>
      match (JSON.index regResp "account").assertMap with
      | .panic v => .panic v
      | .ret account =>
        match (JSON.index account "license").assertString with
        | .panic v => .panic v
        | .ret initialLicenseKey => .ret (deviceId, accessToken, initialLicenseKey)

/-- Lines 118-195: the table `tests`. -/
def tests (deviceId initialLicenseKey publicKey2 : String) : List TestDefinition :=
  [ { Name := "get device", Body := none,
      Path := "/v0a977/reg/" ++ deviceId, Method := "GET" },
    { Name := "get account", Body := none,
      Path := "/v0a977/reg/" ++ deviceId ++ "/account", Method := "GET" },
    { Name := "get account devices", Body := none,
      Path := "/v0a977/reg/" ++ deviceId ++ "/account/devices", Method := "GET" },
    { Name := "set device active", Body := some (.object [("active", .bool true)]),
      Path := "/v0a977/reg/" ++ deviceId ++ "/account/reg/" ++ deviceId, Method := "PATCH" },
    { Name := "set device name", Body := some (.object [("name", .string "TEST")]),
      Path := "/v0a977/reg/" ++ deviceId ++ "/account/reg/" ++ deviceId, Method := "PATCH" },
    { Name := "get account devices, this time with the name set", Body := none,
      Path := "/v0a977/reg/" ++ deviceId ++ "/account/devices", Method := "GET" },
    { Name := "get client config", Body := none,
      Path := "/v0a977/client_config", Method := "GET" },
    { Name := "set license key", Body := some (.object [("license", .string initialLicenseKey)]),
      Path := "/v0a977/reg/" ++ deviceId ++ "/account", Method := "PUT" },
    { Name := "set public key", Body := some (.object [("key", .string publicKey2)]),
      Path := "/v0a977/reg/" ++ deviceId, Method := "PATCH" },
    { Name := "recreate license key", Body := none,
      Path := "/v0a977/reg/" ++ deviceId ++ "/account/license", Method := "POST" } ]

/-- Lines 201-204: the loop `for err := range errChan { errText += err.Error() + "\n" }`
over what the channel delivers before it is closed. Calling `Error` on a nil
`error` panics. -/
def errTextLoop : String → List (Option error) → GoResult String
  | errText, [] => .ret errText
  | _, none :: _ =>
    .panic (.runtime "runtime error: invalid memory address or nil pointer dereference")
  | errText, some err :: rest => errTextLoop (errText ++ (err.Error ++ "\n")) rest

/-- Lines 201-208: the aggregation loop and the final result of `testAPI`. -/
def aggregate (errChan : List (Option error)) : GoResult (Option error) :=
  match errTextLoop "" errChan with
  | .panic v => .panic v
  | .ret errText => if errText != "" then .ret (some (errors.New errText)) else .ret none

/-- What a run of `testAPI` does to the outside, in order. -/
inductive Event where
  | NewTester
  | StartProxy
  | NewPrivateKey
  /-- A request handed to the underlying transport. -/
  | Transmit (r : Request)
  /-- The table handed to the runner, with `defaultHeaders` as it is then. -/
  | StartAll (hs : List (String × String)) (table : List TestDefinition)

/-- Whether an event is the hand-off of the probe table. -/
def Event.isStartAll : Event → Bool
  | .StartAll _ _ => true
  | _ => false

/-- Whether an event is a request going out. -/
def Event.isTransmit : Event → Bool
  | .Transmit _ => true
  | _ => false

/-- A run of `testAPI`: what it returns (`ret none` is the nil error), the
package-level `defaultHeaders` when it ends, and its events. -/
structure Run where
  result : GoResult (Option error)
  defaultHeaders : List (String × String)
  trace : List Event

/-- Lines 61-209: `testAPI`. -/
def testAPI (env : Env) : Run :=
  match env.NewTester with
  | some err => ⟨.ret (some err), defaultHeaders, [.NewTester]⟩
  | none =>
    match env.StartProxy with
    | some err => ⟨.ret (some err), defaultHeaders, [.NewTester, .StartProxy]⟩
    | none =>
      match generateKeyPair env 0 with
      | .panic v => ⟨.panic v, defaultHeaders, [.NewTester, .StartProxy, .NewPrivateKey]⟩
      | .ret (_, publicKey) =>
        match generateKeyPair env 1 with
        | .panic v =>
          ⟨.panic v, defaultHeaders, [.NewTester, .StartProxy, .NewPrivateKey, .NewPrivateKey]⟩
        | .ret (_, publicKey2) =>
          let call := ReceiveSuccess env defaultHeaders "/v0a977/reg" (regData env publicKey).toJSON
          let tr : List Event :=
            [.NewTester, .StartProxy, .NewPrivateKey, .NewPrivateKey, .Transmit call.1]
          match call.2 with
          | .panic v => ⟨.panic v, defaultHeaders, tr⟩
          | .ret (.error err) => ⟨.ret (some err), defaultHeaders, tr⟩
          | .ret (.ok regResp) =>
            match extract regResp with
            | .panic v => ⟨.panic v, defaultHeaders, tr⟩
            | .ret (deviceId, accessToken, initialLicenseKey) =>
              let hs := mapAssign defaultHeaders "Authorization" ("Bearer " ++ accessToken)
              let table := tests deviceId initialLicenseKey (env.KeyString publicKey2)
              let started := env.StartAll table
              match started.2 with
              | some err => ⟨.ret (some err), hs, tr ++ [.StartAll hs table]⟩
              | none => ⟨aggregate started.1, hs, tr ++ [.StartAll hs table]⟩

/-! ## Reading of the aggregate text in the specification -/

/-- The number a sequence of decimal digits denotes, most significant digit
first, as the specification reads a status code out of a message. -/
def decimalValue (digits : List Char) : Nat :=
  digits.foldl (fun n c => 10 * n + (c.toNat - 48)) 0

/-- Pieces of a text cut at its newlines: `cur` is the piece being read, reversed. -/
def splitLinesAux : List Char → List Char → List String
  | cur, [] => if cur.isEmpty then [] else [String.mk cur.reverse]
  | cur, c :: cs =>
    if c = '\n' then String.mk cur.reverse :: splitLinesAux [] cs
    else splitLinesAux (c :: cur) cs

/-- The newline-separated messages of a text, in the words of the spec: every
newline ends one message; what follows the last newline counts when it is not
empty. -/
def splitLines (s : String) : List String := splitLinesAux [] s.data

/-! ## Sample environments -/

/-- A registration response with all three fields. -/
def sampleRegResp : List (String × JSON) :=
  [("id", .string "dev1"), ("token", .string "tok1"),
    ("account", .object [("license", .string "lic1")])]

/-- An environment in which every collaborator succeeds and two probes fail. -/
def sampleEnv : Env where
  NewTester := none
  StartProxy := none
  NewPrivateKey := fun n => .ok ⟨[n]⟩
  Public := fun k => ⟨7 :: k.raw⟩
  KeyString := fun k => if k.raw = [7, 0] then "pub1" else "pub2"
  GetTimestamp := "2019-12-01T10:00:00.000+01:00"
  fixedTransport := fun _ => (some ⟨200, [], "\x7b\x7d"⟩, none)
  clientHeader := [("Content-Type", ["application/json"]), ("User-Agent", ["Go-http-client/1.1"]),
    ("Authorization", ["stale"])]
  clientError := fun e => .foreign 1 ("Post: " ++ e.Error)
  decode := fun _ => .ok sampleRegResp
  StartAll := fun _ => ([some (errors.New "get device: bad code: 500"), some (errors.New "")], none)

/-- A registration response without the `token` field. -/
def sampleRegRespNoToken : List (String × JSON) :=
  [("id", .string "dev1"), ("account", .object [("license", .string "lic1")])]

/-- A request a caller filled with its own values under both header names. -/
def sampleRequest : Request :=
  { Method := "GET", URL := "https://api.cloudflareclient.com/v0a977/reg/dev1",
    Header := [("Authorization", ["Bearer other"]), ("User-Agent", ["curl/8"]), ("Accept", ["*/*"])],
    Body := none }


/-! ## The transport adapter -/

theorem RoundTrip_sent (ft : Request → RoundTripResult) (hs : List (String × String))
    (r : Request) : (CustomTransport.RoundTrip ft hs r).1 = setDefaultHeaders hs r := by
  unfold CustomTransport.RoundTrip
  rcases hft : ft (setDefaultHeaders hs r) with ⟨response, err⟩
  cases err with
  | some e => simp [hft]
  | none =>
    cases response with
    | none => simp [hft]
    | some resp => by_cases hc : resp.StatusCode = 200 <;> simp [hft, hc]

theorem RoundTrip_result (ft : Request → RoundTripResult) (hs : List (String × String))
    (r : Request) :
    (CustomTransport.RoundTrip ft hs r).2 =
      match ft (setDefaultHeaders hs r) with
      | (_, some e) => .ret (none, some e)
      | (none, none) =>
        .panic (.runtime "runtime error: invalid memory address or nil pointer dereference")
      | (some resp, none) =>
        if resp.StatusCode = 200 then .ret (some resp, none)
        else .ret (none, some (errors.New ("bad code: " ++ fmtInt resp.StatusCode))) := by
  unfold CustomTransport.RoundTrip
  rcases hft : ft (setDefaultHeaders hs r) with ⟨response, err⟩
  cases err with
  | some e => simp [hft]
  | none =>
    cases response with
    | none => simp [hft]
    | some resp => by_cases hc : resp.StatusCode = 200 <;> simp [hft, hc]

/-- C1: `CustomTransport.RoundTrip` returns a response with a nil error exactly
when the underlying transport returned that response with a nil error and its
status code is 200, and then it is the same response; an error of the
underlying transport comes back unchanged with a nil response; any other
status code gives a nil response and a non-nil error. -/
theorem RoundTrip_response_iff_status_200 (ft : Request → RoundTripResult)
    (hs : List (String × String)) (r : Request) :
    (∀ resp oe, (CustomTransport.RoundTrip ft hs r).2 = .ret (some resp, oe) ↔
        (ft (CustomTransport.RoundTrip ft hs r).1 = (some resp, none) ∧
          resp.StatusCode = 200 ∧ oe = none)) ∧
    (∀ o e, ft (CustomTransport.RoundTrip ft hs r).1 = (o, some e) →
        (CustomTransport.RoundTrip ft hs r).2 = .ret (none, some e)) ∧
    (∀ resp, ft (CustomTransport.RoundTrip ft hs r).1 = (some resp, none) →
        resp.StatusCode ≠ 200 →
        ∃ e, (CustomTransport.RoundTrip ft hs r).2 = .ret (none, some e)) := by
  rw [RoundTrip_sent, RoundTrip_result]
  rcases hft : ft (setDefaultHeaders hs r) with ⟨response, err⟩
  refine ⟨?_, ?_, ?_⟩
  · intro resp oe
    cases err with
    | some e => simp
    | none =>
      cases response with
      | none => simp
      | some resp0 =>
        by_cases hc : resp0.StatusCode = 200
        · simp only [hc, if_true]
          constructor
          · intro h
            injection h with h
            injection h with h1 h2
            injection h1 with h1
            subst h1
            exact ⟨rfl, hc, h2.symm⟩
          · rintro ⟨h1, -, h3⟩
            injection h1 with h1 _
            injection h1 with h1
            subst h1
            subst h3
            rfl
        · simp only [hc, if_false]
          constructor
          · intro h
            injection h with h
            injection h with h1 _
            exact absurd h1 (by simp)
          · rintro ⟨h1, h2, -⟩
            injection h1 with h1 _
            injection h1 with h1
            subst h1
            exact absurd h2 hc
  · intro o e h
    injection h with h1 h2
    subst h1
    subst h2
    cases response <;> rfl
  · intro resp h hne
    injection h with h1 h2
    subst h1
    subst h2
    exact ⟨errors.New ("bad code: " ++ fmtInt resp.StatusCode), by simp [hne]⟩

/-- Witness of C1: status 200 comes back as it is, status 204 does not. -/
theorem RoundTrip_response_iff_status_200_witness :
    (CustomTransport.RoundTrip (fun _ => (some ⟨200, [], "ok"⟩, none)) defaultHeaders
        sampleRequest).2 = .ret (some ⟨200, [], "ok"⟩, none) ∧
    ∃ e, (CustomTransport.RoundTrip (fun _ => (some ⟨204, [], ""⟩, none)) defaultHeaders
        sampleRequest).2 = .ret (none, some e) :=
  ⟨((RoundTrip_response_iff_status_200 (fun _ => (some ⟨200, [], "ok"⟩, none)) defaultHeaders
      sampleRequest).1 ⟨200, [], "ok"⟩ none).2 ⟨rfl, rfl, rfl⟩,
    (RoundTrip_response_iff_status_200 (fun _ => (some ⟨204, [], ""⟩, none)) defaultHeaders
      sampleRequest).2.2 ⟨204, [], ""⟩ rfl (by decide)⟩

theorem digitChar_decimal (k : Nat) (hk : k < 10) :
    (Nat.digitChar k).isDigit = true ∧ (Nat.digitChar k).toNat - 48 = k := by
  interval_cases k <;> decide

theorem decimalValue_append_digit (pre : List Char) (c : Char) :
    decimalValue (pre ++ [c]) = 10 * decimalValue pre + (c.toNat - 48) := by
  simp [decimalValue, List.foldl_append]

/-- The digits `Nat.toDigitsCore` puts in front of `ds`, given enough fuel:
not empty, all decimal digits, denoting `n`, with a leading zero only for zero. -/
theorem toDigitsCore_decimal (fuel n : Nat) (ds : List Char) (hfuel : n < fuel) :
    ∃ pre, Nat.toDigitsCore 10 fuel n ds = pre ++ ds ∧ pre ≠ [] ∧
      (∀ c ∈ pre, c.isDigit = true) ∧ decimalValue pre = n ∧
      (pre.head? = some '0' → pre = ['0']) := by
  induction fuel generalizing n ds with
  | zero => exact absurd hfuel (Nat.not_lt_zero _)
  | succ fuel ih =>
    have hd := digitChar_decimal (n % 10) (Nat.mod_lt _ (by decide))
    by_cases hq : n / 10 = 0
    · have hlt : n < 10 := by omega
      refine ⟨[Nat.digitChar (n % 10)], ?_, by simp, ?_, ?_, ?_⟩
      · simp [Nat.toDigitsCore, hq]
      · intro c hc
        rw [List.mem_singleton.1 hc]
        exact hd.1
      · have hv : decimalValue [Nat.digitChar (n % 10)] = (Nat.digitChar (n % 10)).toNat - 48 := by
          simp [decimalValue]
        rw [hv, hd.2]
        exact Nat.mod_eq_of_lt hlt
      · intro h
        simpa using h
    · have hlt : n / 10 < fuel := by omega
      rcases ih (n / 10) (Nat.digitChar (n % 10) :: ds) hlt with ⟨pre, heq, hne, hdig, hval, hzero⟩
      refine ⟨pre ++ [Nat.digitChar (n % 10)], ?_, by simp, ?_, ?_, ?_⟩
      · simp [Nat.toDigitsCore, hq, heq]
      · intro c hc
        rcases List.mem_append.1 hc with h | h
        · exact hdig c h
        · rw [List.mem_singleton.1 h]
          exact hd.1
      · rw [decimalValue_append_digit, hval, hd.2]
        omega
      · intro h
        exfalso
        cases pre with
        | nil => exact hne rfl
        | cons c cs =>
          have hc : (c :: cs).head? = some '0' := by simpa using h
          have hpre := hzero hc
          rw [hpre] at hval
          exact hq (by rw [← hval]; decide)

/-- The verb `%d`: an optional minus sign, then the canonical decimal digits of
the absolute value. -/
theorem fmtInt_decimal (s : Int) :
    ∃ digits, fmtInt s = (if s < 0 then "-" else "") ++ String.mk digits ∧ digits ≠ [] ∧
      (∀ c ∈ digits, c.isDigit = true) ∧ decimalValue digits = s.natAbs ∧
      (digits.head? = some '0' → digits = ['0']) := by
  cases s with
  | ofNat m =>
    rcases toDigitsCore_decimal (m + 1) m [] (Nat.lt_succ_self m) with
      ⟨pre, heq, hne, hdig, hval, hzero⟩
    refine ⟨pre, ?_, hne, hdig, by simpa using hval, hzero⟩
    have hr : fmtInt (Int.ofNat m) = String.mk (Nat.toDigitsCore 10 (m + 1) m []) := rfl
    have hnn : ¬ (Int.ofNat m < 0) := Int.not_lt.2 (Int.ofNat_nonneg m)
    rw [hr, heq, if_neg hnn]
    simp
  | negSucc m =>
    rcases toDigitsCore_decimal (m + 1 + 1) (m + 1) [] (Nat.lt_succ_self _) with
      ⟨pre, heq, hne, hdig, hval, hzero⟩
    refine ⟨pre, ?_, hne, hdig, by simpa using hval, hzero⟩
    have hr : fmtInt (Int.negSucc m) =
        "-" ++ String.mk (Nat.toDigitsCore 10 (m + 1 + 1) (m + 1) []) := rfl
    rw [hr, heq, if_pos (Int.negSucc_lt_zero m)]
    simp

/-- C2: for a status code `s` other than 200 the error of `CustomTransport.RoundTrip`
has the message `bad code: ` followed by `s` in decimal: a minus sign when `s`
is negative, then a non-empty run of decimal digits that denotes the absolute
value of `s` and has no leading zero (the single digit `0` apart); so the
message contains the decimal rendering of `s`. -/
theorem RoundTrip_bad_code_message (ft : Request → RoundTripResult)
    (hs : List (String × String)) (r : Request) (resp : Response)
    (hft : ft (CustomTransport.RoundTrip ft hs r).1 = (some resp, none))
    (hcode : resp.StatusCode ≠ 200) :
    ∃ e digits, (CustomTransport.RoundTrip ft hs r).2 = .ret (none, some e) ∧
      e.Error = "bad code: " ++ ((if resp.StatusCode < 0 then "-" else "") ++ String.mk digits) ∧
      digits ≠ [] ∧ (∀ c ∈ digits, c.isDigit = true) ∧
      decimalValue digits = resp.StatusCode.natAbs ∧
      (digits.head? = some '0' → digits = ['0']) ∧
      ∃ before after, e.Error =
        before ++ ((if resp.StatusCode < 0 then "-" else "") ++ String.mk digits) ++ after := by
  rw [RoundTrip_sent] at hft
  rw [RoundTrip_result, hft]
  rcases fmtInt_decimal resp.StatusCode with ⟨digits, hfmt, hne, hdig, hval, hzero⟩
  have hmsg : (errors.New ("bad code: " ++ fmtInt resp.StatusCode)).Error =
      "bad code: " ++ ((if resp.StatusCode < 0 then "-" else "") ++ String.mk digits) := by
    rw [hfmt]
    rfl
  refine ⟨errors.New ("bad code: " ++ fmtInt resp.StatusCode), digits, by simp [hcode], hmsg,
    hne, hdig, hval, hzero, "bad code: ", "", ?_⟩
  rw [hmsg]
  simp

/-- Witness of C2: status 403 gives exactly the message `bad code: 403`, whose
digits `4`, `0`, `3` denote 403. -/
theorem RoundTrip_bad_code_message_witness :
    ((CustomTransport.RoundTrip (fun _ => (some ⟨403, [], ""⟩, none)) defaultHeaders
        sampleRequest).2 = .ret (none, some (errors.New "bad code: 403")) ∧
      decimalValue ['4', '0', '3'] = 403) ∧
    ∃ e digits, (CustomTransport.RoundTrip (fun _ => (some ⟨403, [], ""⟩, none)) defaultHeaders
        sampleRequest).2 = .ret (none, some e) ∧
      e.Error = "bad code: " ++ ((if (403 : Int) < 0 then "-" else "") ++ String.mk digits) ∧
      digits ≠ [] ∧ (∀ c ∈ digits, c.isDigit = true) ∧
      decimalValue digits = (403 : Int).natAbs ∧
      (digits.head? = some '0' → digits = ['0']) ∧
      ∃ before after, e.Error =
        before ++ ((if (403 : Int) < 0 then "-" else "") ++ String.mk digits) ++ after :=
  ⟨⟨by decide, by decide⟩,
    RoundTrip_bad_code_message (fun _ => (some ⟨403, [], ""⟩, none)) defaultHeaders
      sampleRequest ⟨403, [], ""⟩ rfl (by decide)⟩

/-! ## Header injection -/

theorem Header.index_Set_self (h : Header) (key value : String) :
    Header.index (Header.Set h key value) (CanonicalMIMEHeaderKey key) = [value] := by
  simp [Header.index, Header.Set, List.lookup]

theorem lookup_filter_ne (h : Header) (c key : String) (hne : key ≠ c) :
    (h.filter (fun e => e.1 != c)).lookup key = h.lookup key := by
  induction h with
  | nil => rfl
  | cons e rest ih =>
    rcases e with ⟨k, vs⟩
    by_cases hk : k = c
    · subst hk
      have hkk : (key == k) = false := by simpa using hne
      simp [List.filter, List.lookup, hkk, ih]
    · have hkc : (k != c) = true := by simpa using hk
      by_cases hkey : key = k
      · subst hkey
        simp [List.filter, hkc, List.lookup]
      · have hkk : (key == k) = false := by simpa using hkey
        simp [List.filter, hkc, List.lookup, hkk, ih]

theorem Header.index_Set_other (h : Header) (key value other : String)
    (hne : other ≠ CanonicalMIMEHeaderKey key) :
    Header.index (Header.Set h key value) other = Header.index h other := by
  have hb : (other == CanonicalMIMEHeaderKey key) = false := by simpa using hne
  simp [Header.index, Header.Set, List.lookup, hb, lookup_filter_ne h _ _ hne]

theorem setDefaultHeaders_cons (kv : String × String) (hs : List (String × String))
    (r : Request) :
    setDefaultHeaders (kv :: hs) r =
      setDefaultHeaders hs { r with Header := r.Header.Set kv.1 kv.2 } := rfl

theorem setDefaultHeaders_fields (hs : List (String × String)) (r : Request) :
    (setDefaultHeaders hs r).Method = r.Method ∧ (setDefaultHeaders hs r).URL = r.URL ∧
      (setDefaultHeaders hs r).Body = r.Body := by
  induction hs generalizing r with
  | nil => exact ⟨rfl, rfl, rfl⟩
  | cons kv rest ih =>
    rw [setDefaultHeaders_cons]
    exact ih _

theorem setDefaultHeaders_index_other (hs : List (String × String)) (r : Request)
    (other : String) (hne : ∀ e ∈ hs, other ≠ CanonicalMIMEHeaderKey e.1) :
    Header.index (setDefaultHeaders hs r).Header other = Header.index r.Header other := by
  induction hs generalizing r with
  | nil => rfl
  | cons kv rest ih =>
    rw [setDefaultHeaders_cons, ih _ (fun e he => hne e (List.mem_cons_of_mem _ he))]
    exact Header.index_Set_other _ _ _ _ (hne kv (List.mem_cons_self _ _))

theorem setDefaultHeaders_index (hs : List (String × String)) (r : Request)
    (key value : String) (hmem : (key, value) ∈ hs)
    (hnd : (hs.map (fun e => CanonicalMIMEHeaderKey e.1)).Nodup) :
    Header.index (setDefaultHeaders hs r).Header (CanonicalMIMEHeaderKey key) = [value] := by
  induction hs generalizing r with
  | nil => cases hmem
  | cons kv rest ih =>
    rw [setDefaultHeaders_cons]
    rw [List.map_cons, List.nodup_cons] at hnd
    rcases List.mem_cons.1 hmem with heq | hin
    · subst heq
      rw [setDefaultHeaders_index_other]
      · exact Header.index_Set_self _ _ _
      · intro e he hc
        exact hnd.1 (hc ▸ List.mem_map_of_mem (fun e => CanonicalMIMEHeaderKey e.1) he)
    · exact ih _ hin hnd.2

theorem canonical_User_Agent : CanonicalMIMEHeaderKey "User-Agent" = "User-Agent" := by decide

theorem canonical_Authorization :
    CanonicalMIMEHeaderKey "Authorization" = "Authorization" := by decide

/-- After the token is installed, whatever order the range loop takes, the
request going out carries exactly the bearer token and the fixed user agent. -/
theorem setDefaultHeaders_installed (token : String) (order : List (String × String))
    (hperm : order.Perm (mapAssign defaultHeaders "Authorization" ("Bearer " ++ token)))
    (r : Request) :
    Header.index (setDefaultHeaders order r).Header "Authorization" = ["Bearer " ++ token] ∧
      Header.index (setDefaultHeaders order r).Header "User-Agent" = ["okhttp/3.12.1"] := by
  have hmap : mapAssign defaultHeaders "Authorization" ("Bearer " ++ token) =
      [("User-Agent", "okhttp/3.12.1"), ("Authorization", "Bearer " ++ token)] := by
    simp [mapAssign, defaultHeaders]
  rw [hmap] at hperm
  have hnd : (order.map (fun e => CanonicalMIMEHeaderKey e.1)).Nodup := by
    rw [(hperm.map _).nodup_iff]
    simp [canonical_User_Agent, canonical_Authorization]
  have h1 := setDefaultHeaders_index order r "Authorization" ("Bearer " ++ token)
    (hperm.mem_iff.2 (by simp)) hnd
  have h2 := setDefaultHeaders_index order r "User-Agent" "okhttp/3.12.1"
    (hperm.mem_iff.2 (by simp)) hnd
  rw [canonical_Authorization] at h1
  rw [canonical_User_Agent] at h2
  exact ⟨h1, h2⟩


/-! ## Runs of `testAPI` -/

/-- The events of a run up to and including the registration call. -/
theorem testAPI_registration_error (env : Env) (sk1 sk2 : Key) (e : error)
    (h1 : env.NewTester = none) (h2 : env.StartProxy = none)
    (hk1 : env.NewPrivateKey 0 = .ok sk1) (hk2 : env.NewPrivateKey 1 = .ok sk2)
    (hreg : (ReceiveSuccess env defaultHeaders "/v0a977/reg"
      (regData env (env.Public sk1)).toJSON).2 = .ret (.error e)) :
    testAPI env = ⟨.ret (some e), defaultHeaders,
      [.NewTester, .StartProxy, .NewPrivateKey, .NewPrivateKey,
        .Transmit (ReceiveSuccess env defaultHeaders "/v0a977/reg"
          (regData env (env.Public sk1)).toJSON).1]⟩ := by
  simp only [testAPI, h1, h2, generateKeyPair, hk1, hk2, hreg]

theorem testAPI_malformed (env : Env) (sk1 sk2 : Key) (regResp : List (String × JSON))
    (v : error)
    (h1 : env.NewTester = none) (h2 : env.StartProxy = none)
    (hk1 : env.NewPrivateKey 0 = .ok sk1) (hk2 : env.NewPrivateKey 1 = .ok sk2)
    (hreg : (ReceiveSuccess env defaultHeaders "/v0a977/reg"
      (regData env (env.Public sk1)).toJSON).2 = .ret (.ok regResp))
    (hex : extract regResp = .panic v) :
    testAPI env = ⟨.panic v, defaultHeaders,
      [.NewTester, .StartProxy, .NewPrivateKey, .NewPrivateKey,
        .Transmit (ReceiveSuccess env defaultHeaders "/v0a977/reg"
          (regData env (env.Public sk1)).toJSON).1]⟩ := by
  simp only [testAPI, h1, h2, generateKeyPair, hk1, hk2, hreg, hex]

theorem testAPI_registered (env : Env) (sk1 sk2 : Key) (regResp : List (String × JSON))
    (d t l : String)
    (h1 : env.NewTester = none) (h2 : env.StartProxy = none)
    (hk1 : env.NewPrivateKey 0 = .ok sk1) (hk2 : env.NewPrivateKey 1 = .ok sk2)
    (hreg : (ReceiveSuccess env defaultHeaders "/v0a977/reg"
      (regData env (env.Public sk1)).toJSON).2 = .ret (.ok regResp))
    (hex : extract regResp = .ret (d, t, l)) :
    testAPI env =
      ⟨match (env.StartAll (tests d l (env.KeyString (env.Public sk2)))).2 with
        | some err => .ret (some err)
        | none => aggregate (env.StartAll (tests d l (env.KeyString (env.Public sk2)))).1,
        mapAssign defaultHeaders "Authorization" ("Bearer " ++ t),
        [.NewTester, .StartProxy, .NewPrivateKey, .NewPrivateKey,
          .Transmit (ReceiveSuccess env defaultHeaders "/v0a977/reg"
            (regData env (env.Public sk1)).toJSON).1,
          .StartAll (mapAssign defaultHeaders "Authorization" ("Bearer " ++ t))
            (tests d l (env.KeyString (env.Public sk2)))]⟩ := by
  simp only [testAPI, h1, h2, generateKeyPair, hk1, hk2, hreg, hex]
  cases (env.StartAll (tests d l (env.KeyString (env.Public sk2)))).2 <;> rfl

theorem ReceiveSuccess_sent (env : Env) (hs : List (String × String)) (path : String)
    (body : JSON) :
    (ReceiveSuccess env hs path body).1 =
      setDefaultHeaders hs
        { Method := "POST", URL := OpticUrl ++ path, Header := env.clientHeader,
          Body := some body } := by
  unfold ReceiveSuccess
  simp only []
  split <;> exact RoundTrip_sent _ _ _

theorem ReceiveSuccess_result (env : Env) (hs : List (String × String)) (path : String)
    (body : JSON) :
    (ReceiveSuccess env hs path body).2 =
      match (CustomTransport.RoundTrip env.fixedTransport hs
        { Method := "POST", URL := OpticUrl ++ path, Header := env.clientHeader,
          Body := some body }).2 with
      | .panic v => .panic v
      | .ret (_, some e) => .ret (.error (env.clientError e))
      | .ret (some resp, none) => .ret (env.decode resp)
      | .ret (none, none) => .ret (.error (env.clientError
          (.foreign 0 "http: RoundTripper implementation (main.CustomTransport) returned a nil *Response with a nil error"))) := by
  unfold ReceiveSuccess
  simp only []
  split <;> simp_all


/-! ## The probe table -/

/-- C4: for every device id the table has exactly ten probes, in this order,
with these names, methods and paths, all under the prefix `/v0a977/`. -/
theorem tests_names_methods_paths (d l k2 : String) :
    (tests d l k2).length = 10 ∧
    (tests d l k2).map (fun p => (p.Name, p.Method, p.Path)) =
      [ ("get device", "GET", "/v0a977/" ++ "reg/" ++ d),
        ("get account", "GET", "/v0a977/" ++ "reg/" ++ d ++ "/account"),
        ("get account devices", "GET", "/v0a977/" ++ "reg/" ++ d ++ "/account/devices"),
        ("set device active", "PATCH", "/v0a977/" ++ "reg/" ++ d ++ "/account/reg/" ++ d),
        ("set device name", "PATCH", "/v0a977/" ++ "reg/" ++ d ++ "/account/reg/" ++ d),
        ("get account devices, this time with the name set", "GET",
          "/v0a977/" ++ "reg/" ++ d ++ "/account/devices"),
        ("get client config", "GET", "/v0a977/" ++ "client_config"),
        ("set license key", "PUT", "/v0a977/" ++ "reg/" ++ d ++ "/account"),
        ("set public key", "PATCH", "/v0a977/" ++ "reg/" ++ d),
        ("recreate license key", "POST", "/v0a977/" ++ "reg/" ++ d ++ "/account/license") ] :=
  ⟨rfl, rfl⟩

/-! ## The aggregation loop -/

theorem errTextLoop_failures (es : List error) (acc : String) :
    errTextLoop acc (es.map some) =
      .ret (acc ++ String.join (es.map (fun e => e.Error ++ "\n"))) := by
  induction es generalizing acc with
  | nil =>
    have hj : String.join [] = "" := rfl
    simp [errTextLoop, hj]
  | cons e rest ih =>
    simp only [List.map_cons, errTextLoop, ih]
    congr 1
    apply String.ext
    simp [String.data_join]

theorem errText_failures (es : List error) :
    errTextLoop "" (es.map some) = .ret (String.join (es.map (fun e => e.Error ++ "\n"))) := by
  rw [errTextLoop_failures]
  simp

theorem join_failures_eq_empty (es : List error) :
    String.join (es.map (fun e => e.Error ++ "\n")) = "" ↔ es = [] := by
  constructor
  · intro h
    cases es with
    | nil => rfl
    | cons e rest =>
      have hd := congrArg String.data h
      simp [String.data_join] at hd
  · rintro rfl
    rfl

theorem aggregate_failures (es : List error) :
    aggregate (es.map some) =
      if es = [] then .ret none
      else .ret (some (errors.New (String.join (es.map (fun e => e.Error ++ "\n"))))) := by
  unfold aggregate
  rw [errText_failures]
  by_cases h : es = []
  · subst h
    rfl
  · have hne : String.join (es.map (fun e => e.Error ++ "\n")) ≠ "" :=
      fun hc => h ((join_failures_eq_empty es).1 hc)
    simp [h, hne]

theorem splitLinesAux_line (m : List Char) (hm : '\n' ∉ m) (cur rest : List Char) :
    splitLinesAux cur (m ++ '\n' :: rest) =
      String.mk (cur.reverse ++ m) :: splitLinesAux [] rest := by
  induction m generalizing cur with
  | nil => simp [splitLinesAux]
  | cons c cs ih =>
    have hc : c ≠ '\n' := fun h => hm (h ▸ List.mem_cons_self _ _)
    have hcs : '\n' ∉ cs := fun h => hm (List.mem_cons_of_mem _ h)
    simp [splitLinesAux, hc, ih hcs]

theorem splitLines_join (msgs : List String) (hm : ∀ m ∈ msgs, '\n' ∉ m.data) :
    splitLines (String.join (msgs.map (fun m => m ++ "\n"))) = msgs := by
  unfold splitLines
  rw [String.data_join]
  induction msgs with
  | nil => simp [splitLinesAux]
  | cons m rest ih =>
    have h1 : '\n' ∉ m.data := hm m (List.mem_cons_self _ _)
    have h2 := ih (fun x hx => hm x (List.mem_cons_of_mem _ hx))
    have hnl : ("\n" : String).data = ['\n'] := rfl
    simp only [List.map_cons, List.flatten_cons, String.data_append, hnl, List.append_assoc,
      List.singleton_append]
    rw [splitLinesAux_line m.data h1, h2]
    simp


/-- C5: in the table, `set device active` carries `{active: true}`, `set device name`
carries `{name: "TEST"}`, `set license key` carries the license key of the
registration, `set public key` carries the text of the replacement key, and
every other probe has no body; in a run of `testAPI` that registers, the table
handed to the runner is built from the license key of the registration
response and from the second generated key, while the registration request
carried the first. -/
theorem tests_bodies (d l k2 : String) :
    (tests d l k2).map (fun p => (p.Name, p.Body)) =
      [ ("get device", none),
        ("get account", none),
        ("get account devices", none),
        ("set device active", some (.object [("active", .bool true)])),
        ("set device name", some (.object [("name", .string "TEST")])),
        ("get account devices, this time with the name set", none),
        ("get client config", none),
        ("set license key", some (.object [("license", .string l)])),
        ("set public key", some (.object [("key", .string k2)])),
        ("recreate license key", none) ] ∧
    ∀ (env : Env) (sk1 sk2 : Key) (regResp : List (String × JSON)) (t : String),
      env.NewTester = none → env.StartProxy = none →
      env.NewPrivateKey 0 = .ok sk1 → env.NewPrivateKey 1 = .ok sk2 →
      (ReceiveSuccess env defaultHeaders "/v0a977/reg"
        (regData env (env.Public sk1)).toJSON).2 = .ret (.ok regResp) →
      extract regResp = .ret (d, t, l) →
      ∃ q hs, (testAPI env).trace =
          [.NewTester, .StartProxy, .NewPrivateKey, .NewPrivateKey, .Transmit q,
            .StartAll hs (tests d l (env.KeyString (env.Public sk2)))] ∧
        q.Body = some (regData env (env.Public sk1)).toJSON ∧
        (regData env (env.Public sk1)).PublicKey = env.KeyString (env.Public sk1) := by
  refine ⟨rfl, ?_⟩
  intro env sk1 sk2 regResp t h1 h2 hk1 hk2 hreg hex
  rw [testAPI_registered env sk1 sk2 regResp d t l h1 h2 hk1 hk2 hreg hex]
  refine ⟨_, _, rfl, ?_, rfl⟩
  rw [ReceiveSuccess_sent]
  exact (setDefaultHeaders_fields _ _).2.2

/-- Witness of C5: license `lic1` gives the body `{"license":"lic1"}`, and the
sample run hands over the table built from `lic1` and the second key. -/
theorem tests_bodies_witness :
    ((tests "dev1" "lic1" "pub2").map (fun p => (p.Name, p.Body))).lookup "set license key" =
      some (some (.object [("license", .string "lic1")])) ∧
    ∃ q hs, (testAPI sampleEnv).trace =
      [.NewTester, .StartProxy, .NewPrivateKey, .NewPrivateKey, .Transmit q,
        .StartAll hs (tests "dev1" "lic1" "pub2")] :=
  ⟨by rw [(tests_bodies "dev1" "lic1" "pub2").1]; rfl,
    let ⟨q, hs, h, _⟩ := (tests_bodies "dev1" "lic1" "pub2").2 sampleEnv ⟨[0]⟩ ⟨[1]⟩
      sampleRegResp "tok1" rfl rfl rfl rfl rfl rfl
    ⟨q, hs, h⟩⟩

/-- C6: for every finite stream of failures, the aggregation loop ends with a nil
error exactly when the stream is empty, and the aggregate text is empty exactly
then; with at least one failure, even one with an empty message, the result is
a non-nil error; a run of `testAPI` whose runner delivers the stream returns
that result. -/
theorem aggregate_nil_iff_no_failure (es : List error) :
    (aggregate (es.map some) = .ret none ↔ es = []) ∧
    (errTextLoop "" (es.map some) = .ret "" ↔ es = []) ∧
    (es ≠ [] → ∃ e, aggregate (es.map some) = .ret (some e)) ∧
    ∀ (env : Env) (sk1 sk2 : Key) (regResp : List (String × JSON)) (d t l : String),
      env.NewTester = none → env.StartProxy = none →
      env.NewPrivateKey 0 = .ok sk1 → env.NewPrivateKey 1 = .ok sk2 →
      (ReceiveSuccess env defaultHeaders "/v0a977/reg"
        (regData env (env.Public sk1)).toJSON).2 = .ret (.ok regResp) →
      extract regResp = .ret (d, t, l) →
      env.StartAll (tests d l (env.KeyString (env.Public sk2))) = (es.map some, none) →
      (testAPI env).result = aggregate (es.map some) ∧
        ((testAPI env).result = .ret none ↔ es = []) := by
  have hagg : aggregate (es.map some) = .ret none ↔ es = [] := by
    rw [aggregate_failures]
    by_cases h : es = [] <;> simp [h]
  refine ⟨hagg, ?_, ?_, ?_⟩
  · rw [errText_failures]
    constructor
    · intro h
      injection h with h
      exact (join_failures_eq_empty es).1 h
    · intro h
      rw [(join_failures_eq_empty es).2 h]
  · intro h
    rw [aggregate_failures]
    exact ⟨errors.New (String.join (es.map (fun e => e.Error ++ "\n"))), by simp [h]⟩
  · intro env sk1 sk2 regResp d t l h1 h2 hk1 hk2 hreg hex hstart
    have hres : (testAPI env).result = aggregate (es.map some) := by
      rw [testAPI_registered env sk1 sk2 regResp d t l h1 h2 hk1 hk2 hreg hex, hstart]
    exact ⟨hres, by rw [hres]; exact hagg⟩

/-- Witness of C6: one failure with an empty message is still a failure. -/
theorem aggregate_nil_iff_no_failure_witness :
    ∃ e, aggregate ([errors.New ""].map some) = .ret (some e) :=
  (aggregate_nil_iff_no_failure [errors.New ""]).2.2.1 (by decide)

/-- Counterexample to C7 as stated: one failure whose message holds a newline
gives an aggregate text that splits into two pieces, neither of them the message. -/
theorem aggregate_split_counterexample :
    aggregate ([errors.New "a\nb"].map some) = .ret (some (errors.New "a\nb\n")) ∧
    splitLines "a\nb\n" = ["a", "b"] ∧
    splitLines "a\nb\n" ≠ [errors.New "a\nb"].map error.Error := by
  decide

/-- C7, amended: the aggregate text is the concatenation, in stream order, of each
failure message followed by one newline; when no message holds a newline,
splitting the text at its newlines yields exactly the messages, one per failure. -/
theorem aggregate_text_lines (es : List error) :
    errTextLoop "" (es.map some) =
      .ret (String.join (es.map (fun e => e.Error ++ "\n"))) ∧
    (es ≠ [] → aggregate (es.map some) =
      .ret (some (errors.New (String.join (es.map (fun e => e.Error ++ "\n")))))) ∧
    ((∀ e ∈ es, '\n' ∉ e.Error.data) →
      splitLines (String.join (es.map (fun e => e.Error ++ "\n"))) = es.map error.Error ∧
        (splitLines (String.join (es.map (fun e => e.Error ++ "\n")))).length = es.length) := by
  refine ⟨errText_failures es, ?_, ?_⟩
  · intro h
    rw [aggregate_failures]
    simp [h]
  · intro h
    have hsplit := splitLines_join (es.map error.Error) (by
      intro m hmem
      rcases List.mem_map.1 hmem with ⟨e, he, rfl⟩
      exact h e he)
    rw [List.map_map] at hsplit
    have hfun : ((fun m => m ++ "\n") ∘ error.Error) = fun e => e.Error ++ "\n" := rfl
    rw [hfun] at hsplit
    rw [hsplit]
    exact ⟨rfl, by simp⟩

/-- Witness of C7, amended: two failures without newlines give two lines. -/
theorem aggregate_text_lines_witness :
    splitLines (String.join ([errors.New "bad code: 500", errors.New "bad code: 403"].map
        (fun e => e.Error ++ "\n"))) = ["bad code: 500", "bad code: 403"] :=
  ((aggregate_text_lines [errors.New "bad code: 500", errors.New "bad code: 403"]).2.2
    (by decide)).1


/-! ## Registration context -/

theorem extract_eq_ret_iff (regResp : List (String × JSON)) (d t l : String) :
    extract regResp = .ret (d, t, l) ↔
      JSON.index regResp "id" = .string d ∧ JSON.index regResp "token" = .string t ∧
        ∃ m, JSON.index regResp "account" = .object m ∧ JSON.index m "license" = .string l := by
  unfold extract
  cases hid : JSON.index regResp "id" <;> simp [JSON.assertString]
  cases htok : JSON.index regResp "token" <;> simp [JSON.assertString]
  cases hacc : JSON.index regResp "account" <;> simp [JSON.assertMap]
  rename_i m
  cases hlic : JSON.index m "license" <;> simp [JSON.assertString]

theorem extract_ret_or_panic (regResp : List (String × JSON)) :
    (∃ d t l, extract regResp = .ret (d, t, l)) ∨ ∃ v, extract regResp = .panic v := by
  cases h : extract regResp with
  | ret a =>
    rcases a with ⟨d, t, l⟩
    exact Or.inl ⟨d, t, l, rfl⟩
  | panic v => exact Or.inr ⟨v, rfl⟩

/-- C3: once a token is extracted from the registration response, `testAPI`
leaves `defaultHeaders` holding the fixed user agent and `Authorization` equal
to `Bearer ` followed by the token; the table is handed to the runner with the
map already in that state, and nothing was handed over before; from then on
`CustomTransport.RoundTrip`, in whatever order it ranges over the map, hands
the underlying transport a request whose `Authorization` is exactly that
value and whose `User-Agent` is exactly `okhttp/3.12.1`, whatever the caller
had put there. -/
theorem testAPI_installs_bearer_token (env : Env) (sk1 sk2 : Key)
    (regResp : List (String × JSON)) (d t l : String)
    (h1 : env.NewTester = none) (h2 : env.StartProxy = none)
    (hk1 : env.NewPrivateKey 0 = .ok sk1) (hk2 : env.NewPrivateKey 1 = .ok sk2)
    (hreg : (ReceiveSuccess env defaultHeaders "/v0a977/reg"
      (regData env (env.Public sk1)).toJSON).2 = .ret (.ok regResp))
    (hex : extract regResp = .ret (d, t, l)) :
    (testAPI env).defaultHeaders =
      [("User-Agent", "okhttp/3.12.1"), ("Authorization", "Bearer " ++ t)] ∧
    (∃ before, (testAPI env).trace =
        before ++ [.StartAll [("User-Agent", "okhttp/3.12.1"), ("Authorization", "Bearer " ++ t)]
          (tests d l (env.KeyString (env.Public sk2)))] ∧
      before.any Event.isStartAll = false) ∧
    ∀ (order : List (String × String)) (ft : Request → RoundTripResult) (r : Request),
      order.Perm (testAPI env).defaultHeaders →
      Header.index (CustomTransport.RoundTrip ft order r).1.Header "Authorization" =
          ["Bearer " ++ t] ∧
        Header.index (CustomTransport.RoundTrip ft order r).1.Header "User-Agent" =
          ["okhttp/3.12.1"] := by
  have hmap : mapAssign defaultHeaders "Authorization" ("Bearer " ++ t) =
      [("User-Agent", "okhttp/3.12.1"), ("Authorization", "Bearer " ++ t)] := by
    simp [mapAssign, defaultHeaders]
  rw [testAPI_registered env sk1 sk2 regResp d t l h1 h2 hk1 hk2 hreg hex]
  refine ⟨hmap, ⟨[.NewTester, .StartProxy, .NewPrivateKey, .NewPrivateKey,
    .Transmit (ReceiveSuccess env defaultHeaders "/v0a977/reg"
      (regData env (env.Public sk1)).toJSON).1], ?_, rfl⟩, ?_⟩
  · simp only [hmap, List.cons_append, List.nil_append]
  · intro order ft r hperm
    rw [RoundTrip_sent]
    exact setDefaultHeaders_installed t order hperm r

/-- Witness of C3: token `tok1` gives `Authorization: Bearer tok1` on a request
that came with other values, with the map ranged over in either order. -/
theorem testAPI_installs_bearer_token_witness :
    (testAPI sampleEnv).defaultHeaders =
      [("User-Agent", "okhttp/3.12.1"), ("Authorization", "Bearer tok1")] ∧
    Header.index (CustomTransport.RoundTrip sampleEnv.fixedTransport
      [("Authorization", "Bearer tok1"), ("User-Agent", "okhttp/3.12.1")]
      sampleRequest).1.Header "Authorization" = ["Bearer " ++ "tok1"] :=
  have h := testAPI_installs_bearer_token sampleEnv ⟨[0]⟩ ⟨[1]⟩ sampleRegResp "dev1" "tok1" "lic1"
    rfl rfl rfl rfl rfl rfl
  ⟨h.1, (h.2.2 [("Authorization", "Bearer tok1"), ("User-Agent", "okhttp/3.12.1")]
    sampleEnv.fixedTransport sampleRequest (h.1 ▸ List.Perm.swap _ _ _)).1⟩


theorem extract_panics_of_malformed (regResp : List (String × JSON))
    (h : (∀ s, JSON.index regResp "id" ≠ .string s) ∨
      (∀ s, JSON.index regResp "token" ≠ .string s) ∨
      (∀ m, JSON.index regResp "account" ≠ .object m) ∨
      (∀ m, JSON.index regResp "account" = .object m →
        ∀ s, JSON.index m "license" ≠ .string s)) :
    ∃ v, extract regResp = .panic v := by
  rcases extract_ret_or_panic regResp with ⟨d, t, l, hret⟩ | hp
  · rcases (extract_eq_ret_iff regResp d t l).1 hret with ⟨hid, htok, m, hacc, hlic⟩
    rcases h with h | h | h | h
    · exact absurd hid (h d)
    · exact absurd htok (h t)
    · exact absurd hacc (h m)
    · exact absurd hlic (h m hacc l)
  · exact hp

/-- C8: when the registration response lacks a string `id`, a string `token`, an
object `account` or a string `account.license`, `testAPI` panics, hands no
table to the runner and installs no `Authorization` header; when all of them
are there, the extraction yields exactly those three values and the run goes
on to install the token and hand over the table built from them. -/
theorem testAPI_malformed_registration_aborts (env : Env) (sk1 sk2 : Key)
    (regResp : List (String × JSON))
    (h1 : env.NewTester = none) (h2 : env.StartProxy = none)
    (hk1 : env.NewPrivateKey 0 = .ok sk1) (hk2 : env.NewPrivateKey 1 = .ok sk2)
    (hreg : (ReceiveSuccess env defaultHeaders "/v0a977/reg"
      (regData env (env.Public sk1)).toJSON).2 = .ret (.ok regResp)) :
    (((∀ s, JSON.index regResp "id" ≠ .string s) ∨
        (∀ s, JSON.index regResp "token" ≠ .string s) ∨
        (∀ m, JSON.index regResp "account" ≠ .object m) ∨
        (∀ m, JSON.index regResp "account" = .object m →
          ∀ s, JSON.index m "license" ≠ .string s)) →
      (∃ v, (testAPI env).result = .panic v) ∧
        (testAPI env).trace.any Event.isStartAll = false ∧
        (testAPI env).defaultHeaders.lookup "Authorization" = none) ∧
    (∀ d t l m, JSON.index regResp "id" = .string d → JSON.index regResp "token" = .string t →
      JSON.index regResp "account" = .object m → JSON.index m "license" = .string l →
      extract regResp = .ret (d, t, l) ∧
        (testAPI env).defaultHeaders.lookup "Authorization" = some ("Bearer " ++ t) ∧
        ∃ before hs, (testAPI env).trace =
          before ++ [.StartAll hs (tests d l (env.KeyString (env.Public sk2)))]) := by
  constructor
  · intro hbad
    rcases extract_panics_of_malformed regResp hbad with ⟨v, hv⟩
    rw [testAPI_malformed env sk1 sk2 regResp v h1 h2 hk1 hk2 hreg hv]
    exact ⟨⟨v, rfl⟩, rfl, rfl⟩
  · intro d t l m hid htok hacc hlic
    have hex : extract regResp = .ret (d, t, l) :=
      (extract_eq_ret_iff regResp d t l).2 ⟨hid, htok, m, hacc, hlic⟩
    rw [testAPI_registered env sk1 sk2 regResp d t l h1 h2 hk1 hk2 hreg hex]
    refine ⟨hex, ?_, [.NewTester, .StartProxy, .NewPrivateKey, .NewPrivateKey,
      .Transmit (ReceiveSuccess env defaultHeaders "/v0a977/reg"
        (regData env (env.Public sk1)).toJSON).1], _, rfl⟩
    simp [mapAssign, defaultHeaders, List.lookup]

/-- Witness of C8: a response without `token` makes the run panic before any hand-off. -/
theorem testAPI_malformed_registration_aborts_witness :
    (∃ v, (testAPI { sampleEnv with decode := fun _ => .ok sampleRegRespNoToken }).result =
        .panic v) ∧
      (testAPI { sampleEnv with decode := fun _ => .ok sampleRegRespNoToken }).trace.any
        Event.isStartAll = false ∧
      (testAPI { sampleEnv with decode := fun _ => .ok sampleRegRespNoToken }).defaultHeaders.lookup
        "Authorization" = none :=
  (testAPI_malformed_registration_aborts
    { sampleEnv with decode := fun _ => .ok sampleRegRespNoToken } ⟨[0]⟩ ⟨[1]⟩
    sampleRegRespNoToken rfl rfl rfl rfl rfl).1
    (Or.inr (Or.inl (fun s h => by simp [JSON.index, sampleRegRespNoToken, List.lookup] at h)))


theorem testAPI_trace_after_keys (env : Env) (sk1 sk2 : Key)
    (h1 : env.NewTester = none) (h2 : env.StartProxy = none)
    (hk1 : env.NewPrivateKey 0 = .ok sk1) (hk2 : env.NewPrivateKey 1 = .ok sk2) :
    ∃ rest, (testAPI env).trace =
        [.NewTester, .StartProxy, .NewPrivateKey, .NewPrivateKey,
          .Transmit (ReceiveSuccess env defaultHeaders "/v0a977/reg"
            (regData env (env.Public sk1)).toJSON).1] ++ rest ∧
      rest.any Event.isTransmit = false := by
  cases hc : (ReceiveSuccess env defaultHeaders "/v0a977/reg"
      (regData env (env.Public sk1)).toJSON).2 with
  | panic v =>
    refine ⟨[], ?_, rfl⟩
    simp only [testAPI, h1, h2, generateKeyPair, hk1, hk2, hc, List.append_nil]
  | ret x =>
    cases x with
    | error e =>
      rw [testAPI_registration_error env sk1 sk2 e h1 h2 hk1 hk2 hc]
      exact ⟨[], rfl, rfl⟩
    | ok regResp =>
      rcases extract_ret_or_panic regResp with ⟨d, t, l, hex⟩ | ⟨v, hex⟩
      · rw [testAPI_registered env sk1 sk2 regResp d t l h1 h2 hk1 hk2 hc hex]
        exact ⟨[.StartAll _ _], rfl, rfl⟩
      · rw [testAPI_malformed env sk1 sk2 regResp v h1 h2 hk1 hk2 hc hex]
        exact ⟨[], rfl, rfl⟩

/-- C9: when creating the tester or starting the proxy fails with `e`, `testAPI`
returns exactly `e`, sends no request and hands no table to the runner; when
the registration call fails, `testAPI` returns the error of that call and
hands no table to the runner; the call fails whenever the underlying
transport fails or answers with a status other than 200. -/
theorem testAPI_aborts_before_probes (env : Env) :
    (∀ e, env.NewTester = some e →
      (testAPI env).result = .ret (some e) ∧
        (testAPI env).trace.any Event.isTransmit = false ∧
        (testAPI env).trace.any Event.isStartAll = false) ∧
    (∀ e, env.NewTester = none → env.StartProxy = some e →
      (testAPI env).result = .ret (some e) ∧
        (testAPI env).trace.any Event.isTransmit = false ∧
        (testAPI env).trace.any Event.isStartAll = false) ∧
    (∀ sk1 sk2 e, env.NewTester = none → env.StartProxy = none →
      env.NewPrivateKey 0 = .ok sk1 → env.NewPrivateKey 1 = .ok sk2 →
      (ReceiveSuccess env defaultHeaders "/v0a977/reg"
        (regData env (env.Public sk1)).toJSON).2 = .ret (.error e) →
      (testAPI env).result = .ret (some e) ∧
        (testAPI env).trace.any Event.isStartAll = false) ∧
    (∀ hs path body o e0,
      env.fixedTransport (ReceiveSuccess env hs path body).1 = (o, some e0) →
      (ReceiveSuccess env hs path body).2 = .ret (.error (env.clientError e0))) ∧
    (∀ hs path body resp,
      env.fixedTransport (ReceiveSuccess env hs path body).1 = (some resp, none) →
      resp.StatusCode ≠ 200 →
      (ReceiveSuccess env hs path body).2 = .ret (.error (env.clientError
        (errors.New ("bad code: " ++ fmtInt resp.StatusCode))))) := by
  refine ⟨?_, ?_, ?_, ?_, ?_⟩
  · intro e h
    have hrun : testAPI env = ⟨.ret (some e), defaultHeaders, [.NewTester]⟩ := by
      simp only [testAPI, h]
    rw [hrun]
    exact ⟨rfl, rfl, rfl⟩
  · intro e h1 h2
    have hrun : testAPI env = ⟨.ret (some e), defaultHeaders, [.NewTester, .StartProxy]⟩ := by
      simp only [testAPI, h1, h2]
    rw [hrun]
    exact ⟨rfl, rfl, rfl⟩
  · intro sk1 sk2 e h1 h2 hk1 hk2 hreg
    rw [testAPI_registration_error env sk1 sk2 e h1 h2 hk1 hk2 hreg]
    exact ⟨rfl, rfl⟩
  · intro hs path body o e0 hft
    rw [ReceiveSuccess_sent] at hft
    rw [ReceiveSuccess_result, RoundTrip_result, hft]
    cases o <;> rfl
  · intro hs path body resp hft hcode
    rw [ReceiveSuccess_sent] at hft
    rw [ReceiveSuccess_result, RoundTrip_result, hft]
    simp [hcode]

/-- Witness of C9: a proxy that does not start, and a registration answered with 403. -/
theorem testAPI_aborts_before_probes_witness :
    ((testAPI { sampleEnv with StartProxy := some (.foreign 2 "listen: address in use") }).result =
        .ret (some (.foreign 2 "listen: address in use")) ∧
      (testAPI { sampleEnv with StartProxy := some (.foreign 2 "listen: address in use") }).trace.any
        Event.isTransmit = false ∧
      (testAPI { sampleEnv with StartProxy := some (.foreign 2 "listen: address in use") }).trace.any
        Event.isStartAll = false) ∧
    (testAPI { sampleEnv with fixedTransport := fun _ => (some ⟨403, [], ""⟩, none) }).result =
      .ret (some (.foreign 1 "Post: bad code: 403")) :=
  ⟨(testAPI_aborts_before_probes
      { sampleEnv with StartProxy := some (.foreign 2 "listen: address in use") }).2.1
      (.foreign 2 "listen: address in use") rfl rfl,
    ((testAPI_aborts_before_probes
      { sampleEnv with fixedTransport := fun _ => (some ⟨403, [], ""⟩, none) }).2.2.1
      ⟨[0]⟩ ⟨[1]⟩ (.foreign 1 "Post: bad code: 403") rfl rfl rfl rfl rfl).1⟩

/-- C10: the registration call is one `POST` to `/v0a977/reg` on the proxy, whose
JSON body has exactly the seven members `key` (the text of the first generated
public key), `install_id` and `fcm_token` (both empty), `tos` (the timestamp),
`model` = `PC`, `type` = `Android`, `locale` = `en_US`. -/
theorem testAPI_registration_request (env : Env) (sk1 sk2 : Key)
    (h1 : env.NewTester = none) (h2 : env.StartProxy = none)
    (hk1 : env.NewPrivateKey 0 = .ok sk1) (hk2 : env.NewPrivateKey 1 = .ok sk2) :
    ∃ q rest, (testAPI env).trace =
        [.NewTester, .StartProxy, .NewPrivateKey, .NewPrivateKey, .Transmit q] ++ rest ∧
      rest.any Event.isTransmit = false ∧
      q.Method = "POST" ∧ q.URL = "http://localhost:8889" ++ "/v0a977/reg" ∧
      q.Body = some (.object
        [("key", .string (env.KeyString (env.Public sk1))), ("install_id", .string ""),
          ("fcm_token", .string ""), ("tos", .string env.GetTimestamp),
          ("model", .string "PC"), ("type", .string "Android"), ("locale", .string "en_US")]) := by
  rcases testAPI_trace_after_keys env sk1 sk2 h1 h2 hk1 hk2 with ⟨rest, htr, hrest⟩
  refine ⟨_, rest, htr, hrest, ?_⟩
  rw [ReceiveSuccess_sent]
  have hf := setDefaultHeaders_fields defaultHeaders
    { Method := "POST", URL := OpticUrl ++ "/v0a977/reg", Header := env.clientHeader,
      Body := some (regData env (env.Public sk1)).toJSON }
  exact ⟨hf.1, hf.2.1, hf.2.2⟩

/-- Witness of C10: the sample run registers with the first key, `pub1`. -/
theorem testAPI_registration_request_witness :
    ∃ q rest, (testAPI sampleEnv).trace =
        [.NewTester, .StartProxy, .NewPrivateKey, .NewPrivateKey, .Transmit q] ++ rest ∧
      rest.any Event.isTransmit = false ∧
      q.Method = "POST" ∧ q.URL = "http://localhost:8889" ++ "/v0a977/reg" ∧
      q.Body = some (.object
        [("key", .string "pub1"), ("install_id", .string ""),
          ("fcm_token", .string ""), ("tos", .string "2019-12-01T10:00:00.000+01:00"),
          ("model", .string "PC"), ("type", .string "Android"), ("locale", .string "en_US")]) :=
  testAPI_registration_request sampleEnv ⟨[0]⟩ ⟨[1]⟩ rfl rfl rfl rfl

end Wgcf
